import Mathlib

/-!
Shallow embedding of the DNS chat client in `src/client/dns_chat.py`.

The client tunnels a chat protocol over DNS TXT queries.  The transport
layer (dnspython resolver) is modelled as a pure function from the query
name to a `DnsOutcome`; the exceptions the Python code catches are the
non-`answer` variants.  Console output produced through the `print_xxx`
helpers is modelled as a list of `OutMsg` records, and each operation
also records the list of DNS query names it sent, so that claims about
"no transport call" and "at most one query" are statable.
-/

namespace DnsChat

/-- Outcome of a single resolver call, as seen by `query_dns`:
either a list of TXT records (each delivered pre-quoted by the resolver
layer) or one of the exception classes the Python code catches. -/
inductive DnsOutcome where
  | answer (records : List String)
  | nxdomain
  | noAnswer
  | timeout
  | dnsError (detail : String)
  | otherError (detail : String)
deriving DecidableEq, Repr

/-- The transport is a pure map from query name to DNS outcome. -/
def Transport : Type := String → DnsOutcome

/-- Category of a console message, one per `print_xxx` helper. -/
inductive MsgKind where
  | success
  | error
  | info
  | warning
  | aiResponse
deriving DecidableEq, Repr

/-- One console message produced by a `print_xxx` helper. -/
structure OutMsg where
  kind : MsgKind
  text : String
deriving DecidableEq, Repr

/-- The mutable state of `DNSChatClient.__init__`: resolver configuration
and the stored API key (initially the empty string). -/
structure DNSChatClient where
  server_host : String
  server_port : Nat
  api_key : String
deriving DecidableEq, Repr

/-- Construction of the client (`__init__`): the api key starts empty. -/
def DNSChatClient.init (host : String) (port : Nat) : DNSChatClient :=
  ⟨host, port, ""⟩

/-! ## Python string primitives used by the client -/

/-- Drop the characters satisfying `p` from both ends of a list;
this is the semantics of Python `str.strip`. -/
def stripWhile (p : Char → Bool) (l : List Char) : List Char :=
  ((l.dropWhile p).reverse.dropWhile p).reverse

/-- Python `s.strip(ch)`: remove every leading and trailing occurrence
of the character `ch`. -/
def pyStripChar (ch : Char) (s : String) : String :=
  String.mk (stripWhile (fun c => c == ch) s.data)

/-- Python `s.strip()`: remove leading and trailing whitespace. -/
def pyTrim (s : String) : String :=
  String.mk (stripWhile Char.isWhitespace s.data)

/-- Python `s.startswith(pre)`. -/
def pyStartsWith (s pre : String) : Bool :=
  pre.data.isPrefixOf s.data

/-- Fuel-driven scan underlying `listReplace`: with at least `l.length`
fuel it replaces every leftmost, non-overlapping occurrence of `pat` by
`repl`.  The fuel only makes the recursion structural; each step
consumes at least one character, so it never runs out. -/
def listReplaceAux (pat repl : List Char) : Nat → List Char → List Char
  | _, [] => []
  | 0, l => l
  | fuel + 1, c :: rest =>
    if pat.isPrefixOf (c :: rest) ∧ pat ≠ [] then
      repl ++ listReplaceAux pat repl fuel (rest.drop (pat.length - 1))
    else
      c :: listReplaceAux pat repl fuel rest

/-- Replace every (leftmost, non-overlapping) occurrence of `pat` in the
list by `repl`; the semantics of Python `str.replace`.  An empty pattern
is never used by the client and is treated as a no-op. -/
def listReplace (pat repl l : List Char) : List Char :=
  listReplaceAux pat repl l.length l

/-- Python `s.replace(pat, repl)` (all occurrences). -/
def pyReplace (s pat repl : String) : String :=
  String.mk (listReplace pat.data repl.data s.data)

/-- Split a list on a separator character, keeping empty segments;
the semantics of Python `s.split(sep)` for a one-character separator
(on the empty string it yields one empty segment). -/
def splitOnSep (sep : Char) (l : List Char) : List (List Char) :=
  match l with
  | [] => [[]]
  | c :: rest =>
    let r := splitOnSep sep rest
    if c = sep then
      [] :: r
    else
      match r with
      | [] => [[c]]
      | h :: t => (c :: h) :: t

/-- Python `s.split(sep)` for a one-character separator. -/
def pySplit (s : String) (sep : Char) : List String :=
  (splitOnSep sep s.data).map String.mk

/-- Whether `pat` occurs as a contiguous sublist of `l` (used to state
side conditions about `replace`). -/
def hasSub (pat : List Char) (l : List Char) : Bool :=
  match l with
  | [] => pat.isPrefixOf ([] : List Char)
  | _ :: rest => pat.isPrefixOf l || hasSub pat rest

/-- Python rendering of an optional string inside an f-string:
`None` for the absent case, the string itself otherwise. -/
def optStr : Option String → String
  | none => "None"
  | some s => s

/-! ## The client operations -/

/-- Result of one `query_dns` call: the decoded TXT text (or `none` on
any failure), the resolver queries issued, and the console output. -/
structure QueryResult where
  value : Option String
  queries : List String
  output : List OutMsg
deriving DecidableEq, Repr

/-- Result of a client operation: its return value, the client state
after the call, the resolver queries issued, and the console output. -/
structure OpResult (α : Type) where
  value : α
  client : DNSChatClient
  queries : List String
  output : List OutMsg
deriving DecidableEq, Repr

/-- `DNSChatClient.query_dns`: issue one TXT query and decode the first
record by stripping the resolver quoting with Python `strip` on the
quote character; every caught exception becomes `none` plus an error
message.  (The loading animation is cosmetic and not modelled.) -/
def query_dns (t : Transport) (query : String) (show_query : Bool) : QueryResult :=
  let infoOut : List OutMsg :=
    if show_query ∧ (query = "PING" ∨ query = "LIST") then
      [⟨MsgKind.info, "Querying: " ++ query⟩]
    else []
  match t query with
  | DnsOutcome.answer records =>
    match records with
    | [] => ⟨none, [query], infoOut ++ [⟨MsgKind.error, "No response received"⟩]⟩
    | r :: _ => ⟨some (pyStripChar '"' r), [query], infoOut⟩
  | DnsOutcome.nxdomain =>
    ⟨none, [query], infoOut ++ [⟨MsgKind.error, "Domain not found"⟩]⟩
  | DnsOutcome.noAnswer =>
    ⟨none, [query], infoOut ++ [⟨MsgKind.error, "No TXT record found"⟩]⟩
  | DnsOutcome.timeout =>
    ⟨none, [query], infoOut ++ [⟨MsgKind.error, "DNS query timed out"⟩]⟩
  | DnsOutcome.dnsError e =>
    ⟨none, [query], infoOut ++ [⟨MsgKind.error, "DNS error: " ++ e⟩]⟩
  | DnsOutcome.otherError e =>
    ⟨none, [query], infoOut ++ [⟨MsgKind.error, "Unexpected error: " ++ e⟩]⟩

/-- `DNSChatClient.set_api_key`: reject any key whose length is not 10,
otherwise store it. -/
def set_api_key (c : DNSChatClient) (api_key : String) : OpResult Bool :=
  if api_key.length ≠ 10 then
    ⟨false, c, [],
      [⟨MsgKind.error,
        "API key must be exactly 10 characters. Got " ++
          toString api_key.length ++ " characters."⟩]⟩
  else
    ⟨true, { c with api_key := api_key }, [], []⟩

/-- `DNSChatClient.ping`: query `PING` and succeed exactly on the reply
`PONG`. -/
def ping (t : Transport) (c : DNSChatClient) : OpResult Bool :=
  let r := query_dns t "PING" false
  if r.value = some "PONG" then
    ⟨true, c, r.queries, r.output ++ [⟨MsgKind.success, "Server is responding!"⟩]⟩
  else
    ⟨false, c, r.queries,
      r.output ++ [⟨MsgKind.error, "Unexpected response: " ++ optStr r.value⟩]⟩

/-- `DNSChatClient.list_models`: query `LIST`; on a non-empty reply that
starts with `Available models:` remove every occurrence of
`Available models: ` (Python `replace`), split on the pipe character and
strip each entry. -/
def list_models (t : Transport) (c : DNSChatClient) : OpResult (Option (List String)) :=
  let r := query_dns t "LIST" false
  match r.value with
  | some response =>
    if response ≠ "" ∧ pyStartsWith response "Available models:" then
      let models := (pySplit (pyReplace response "Available models: " "") '|').map pyTrim
      ⟨some models, c, r.queries, r.output ++ [⟨MsgKind.success, "Available models:"⟩]⟩
    else
      ⟨none, c, r.queries,
        r.output ++ [⟨MsgKind.error, "Unexpected response: " ++ response⟩]⟩
  | none =>
    ⟨none, c, r.queries,
      r.output ++ [⟨MsgKind.error, "Unexpected response: None"⟩]⟩

/-- `DNSChatClient.chat`: after the three local precondition checks
(api key set, model index in range, prompt non-empty once stripped),
send the concatenation `api_key + str(model_index) + prompt` as the
query name; a truthy reply starting with `ERROR:` is reported verbatim
as an error, any other truthy reply is the chat answer. -/
def chat (t : Transport) (c : DNSChatClient) (model_index : Int) (prompt : String) :
    OpResult (Option String) :=
  if c.api_key = "" then
    ⟨none, c, [], [⟨MsgKind.error, "API key not set. Use set_api_key() first."⟩]⟩
  else if ¬ (0 ≤ model_index ∧ model_index ≤ 9) then
    ⟨none, c, [], [⟨MsgKind.error, "Model index must be between 0 and 9"⟩]⟩
  else if pyTrim prompt = "" then
    ⟨none, c, [], [⟨MsgKind.error, "Prompt cannot be empty"⟩]⟩
  else
    let query := c.api_key ++ toString model_index ++ prompt
    let r := query_dns t query false
    match r.value with
    | some response =>
      if response ≠ "" then
        if pyStartsWith response "ERROR:" then
          ⟨none, c, r.queries, r.output ++ [⟨MsgKind.error, response⟩]⟩
        else
          ⟨some response, c, r.queries, r.output ++ [⟨MsgKind.aiResponse, response⟩]⟩
      else
        ⟨none, c, r.queries, r.output⟩
    | none => ⟨none, c, r.queries, r.output⟩

/-! ## Helper lemmas about the embedding -/

/-- Failure variants of a transport outcome: everything the Python code
catches as an exception. -/
def DnsOutcome.isFail : DnsOutcome → Bool
  | DnsOutcome.answer _ => false
  | _ => true

theorem isPrefixOf_append_self (l m : List Char) : l.isPrefixOf (l ++ m) = true := by
  induction l with
  | nil => simp [List.isPrefixOf]
  | cons a as ih => simp [List.isPrefixOf, ih]

theorem query_dns_queries (t : Transport) (q : String) (sq : Bool) :
    (query_dns t q sq).queries = [q] := by
  unfold query_dns
  rcases ht : t q with rs | _ | _ | _ | e | e <;> simp only []
  · cases rs <;> rfl

theorem query_dns_value_fail (t : Transport) (q : String) (sq : Bool)
    (h : (t q).isFail = true) : (query_dns t q sq).value = none := by
  unfold query_dns
  rcases ht : t q with rs | _ | _ | _ | e | e <;> simp only []
  · rw [ht] at h; simp [DnsOutcome.isFail] at h

theorem ping_client (t : Transport) (c : DNSChatClient) : (ping t c).client = c := by
  unfold ping
  dsimp only
  split <;> rfl

theorem ping_queries (t : Transport) (c : DNSChatClient) : (ping t c).queries = ["PING"] := by
  unfold ping
  dsimp only
  split <;> simp [query_dns_queries]

theorem list_models_client (t : Transport) (c : DNSChatClient) :
    (list_models t c).client = c := by
  unfold list_models
  dsimp only
  split <;> (try split) <;> rfl

theorem list_models_queries (t : Transport) (c : DNSChatClient) :
    (list_models t c).queries = ["LIST"] := by
  unfold list_models
  dsimp only
  split <;> (try split) <;> simp [query_dns_queries]

theorem chat_client (t : Transport) (c : DNSChatClient) (mi : Int) (prompt : String) :
    (chat t c mi prompt).client = c := by
  unfold chat
  dsimp only
  split
  · rfl
  split
  · rfl
  split
  · rfl
  split <;> (try split) <;> (try split) <;> rfl

theorem chat_queries_valid (t : Transport) (c : DNSChatClient) (mi : Int) (prompt : String)
    (hk : c.api_key ≠ "") (hm : 0 ≤ mi ∧ mi ≤ 9) (hp : pyTrim prompt ≠ "") :
    (chat t c mi prompt).queries = [c.api_key ++ toString mi ++ prompt] := by
  unfold chat
  dsimp only
  rw [if_neg hk, if_neg (not_not_intro hm), if_neg hp]
  split <;> (try split) <;> (try split) <;> simp [query_dns_queries]

theorem chat_queries_invalid (t : Transport) (c : DNSChatClient) (mi : Int) (prompt : String)
    (h : c.api_key = "" ∨ ¬ (0 ≤ mi ∧ mi ≤ 9) ∨ pyTrim prompt = "") :
    (chat t c mi prompt).value = none ∧ (chat t c mi prompt).queries = [] := by
  unfold chat
  rcases h with h | h | h
  · rw [if_pos h]; exact ⟨rfl, rfl⟩
  · rcases eq_or_ne c.api_key "" with hk | hk
    · rw [if_pos hk]; exact ⟨rfl, rfl⟩
    · rw [if_neg hk, if_pos h]; exact ⟨rfl, rfl⟩
  · rcases eq_or_ne c.api_key "" with hk | hk
    · rw [if_pos hk]; exact ⟨rfl, rfl⟩
    · rcases Classical.em (0 ≤ mi ∧ mi ≤ 9) with hm | hm
      · rw [if_neg hk, if_neg (not_not_intro hm), if_pos h]; exact ⟨rfl, rfl⟩
      · rw [if_neg hk, if_pos hm]; exact ⟨rfl, rfl⟩

theorem dropWhile_replicate_append (p : Char → Bool) (c : Char) (hc : p c = true)
    (j : Nat) (l : List Char) :
    (List.replicate j c ++ l).dropWhile p = l.dropWhile p := by
  induction j with
  | zero => rfl
  | succ n ih => simp [List.replicate_succ, List.dropWhile_cons, hc, ih]

theorem stripWhile_replicate_sandwich (p : Char → Bool) (c : Char) (hc : p c = true)
    (l : List Char) (hh : ∀ x ∈ l.head?, p x = false) (hl : ∀ x ∈ l.getLast?, p x = false)
    (j k : Nat) :
    stripWhile p (List.replicate j c ++ l ++ List.replicate k c) = l := by
  unfold stripWhile
  rw [List.append_assoc, dropWhile_replicate_append p c hc]
  cases l with
  | nil =>
    rw [List.nil_append]
    have h1 : (List.replicate k c).dropWhile p = ([] : List Char) := by
      have := dropWhile_replicate_append p c hc k []
      simpa using this
    simp [h1]
  | cons a as =>
    have ha : p a = false := hh a rfl
    rw [List.cons_append, List.dropWhile_cons, if_neg (by simp [ha])]
    rw [show a :: (as ++ List.replicate k c) = (a :: as) ++ List.replicate k c from rfl]
    rw [List.reverse_append, List.reverse_replicate,
      dropWhile_replicate_append p c hc]
    obtain ⟨b, bs, hrev⟩ : ∃ b bs, (a :: as).reverse = b :: bs :=
      List.exists_cons_of_ne_nil (by simp)
    have hb : p b = false := by
      apply hl
      rw [← List.head?_reverse, hrev]
      rfl
    rw [hrev, List.dropWhile_cons, if_neg (by simp [hb])]
    rw [← hrev, List.reverse_reverse]

theorem listReplaceAux_of_not_hasSub (pat repl : List Char) (fuel : Nat) (l : List Char)
    (hfuel : l.length ≤ fuel) (h : hasSub pat l = false) :
    listReplaceAux pat repl fuel l = l := by
  induction fuel generalizing l with
  | zero =>
    cases l with
    | nil => rfl
    | cons c rest => simp at hfuel
  | succ n ih =>
    cases l with
    | nil => rfl
    | cons c rest =>
      rw [hasSub] at h
      simp only [Bool.or_eq_false_iff] at h
      rw [listReplaceAux, if_neg (by simp [h.1])]
      rw [ih rest (by simp at hfuel; omega) h.2]

theorem listReplaceAux_cons_self (p : Char) (pt repl l : List Char) (f : Nat) :
    listReplaceAux (p :: pt) repl (f + 1) ((p :: pt) ++ l) =
      repl ++ listReplaceAux (p :: pt) repl f l := by
  rw [List.cons_append, listReplaceAux]
  rw [if_pos ⟨by rw [← List.cons_append]; exact isPrefixOf_append_self (p :: pt) l, by simp⟩]
  congr 1
  have : (p :: pt).length - 1 = pt.length := by simp
  rw [this, List.drop_left]

theorem listReplace_append_of_not_hasSub (pat repl l : List Char) (hp : pat ≠ [])
    (h : hasSub pat l = false) :
    listReplace pat repl (pat ++ l) = repl ++ l := by
  obtain ⟨p, pt, rfl⟩ : ∃ p pt, pat = p :: pt := by
    cases pat with
    | nil => exact absurd rfl hp
    | cons p pt => exact ⟨p, pt, rfl⟩
  unfold listReplace
  have hlen : ((p :: pt) ++ l).length = (pt.length + l.length) + 1 := by
    simp [List.length_append]
  rw [hlen, listReplaceAux_cons_self]
  rw [listReplaceAux_of_not_hasSub (p :: pt) repl _ l (by omega) h]

/-- Decimal digit string of a model index; the spec reading of how the
index appears inside the query name. -/
def digitString (mi : Int) : String :=
  String.singleton (Char.ofNat (48 + mi.toNat))

theorem toString_int_digit (mi : Int) (h0 : 0 ≤ mi) (h9 : mi ≤ 9) :
    toString mi = digitString mi := by
  interval_cases mi <;> decide

/-- Client states reachable through the public operations, starting
from a freshly constructed client. -/
inductive Reachable : DNSChatClient → Prop where
  | start (host : String) (port : Nat) : Reachable (DNSChatClient.init host port)
  | setKey (c : DNSChatClient) (k : String) : Reachable c → Reachable (set_api_key c k).client
  | pinged (c : DNSChatClient) (t : Transport) : Reachable c → Reachable (ping t c).client
  | listed (c : DNSChatClient) (t : Transport) : Reachable c → Reachable (list_models t c).client
  | chatted (c : DNSChatClient) (t : Transport) (mi : Int) (p : String) :
      Reachable c → Reachable (chat t c mi p).client

/-! ## Claims -/

/-- Claim C1: for every client whose api key has length 10, every model
index in `[0, 9]` and every prompt that is non-empty after trimming, the
query name `chat` sends to the transport is exactly the concatenation of
the api key, the decimal digit of the model index and the prompt, with
no separators. -/
theorem chat_query_is_key_digit_prompt (t : Transport) (c : DNSChatClient)
    (mi : Int) (prompt : String)
    (hkey : c.api_key.length = 10) (h0 : 0 ≤ mi) (h9 : mi ≤ 9)
    (hp : pyTrim prompt ≠ "") :
    (chat t c mi prompt).queries = [c.api_key ++ digitString mi ++ prompt] := by
  have hk : c.api_key ≠ "" := fun he => by
    rw [he] at hkey
    exact absurd hkey (by decide)
  rw [← toString_int_digit mi h0 h9]
  exact chat_queries_valid t c mi prompt hk ⟨h0, h9⟩ hp

/-- Witness for C1 at the spec example: api key `ABCDEFGHIJ`, model
index 3 and prompt `hello` encode to `ABCDEFGHIJ3hello`. -/
theorem chat_query_is_key_digit_prompt_check :
    (chat (fun _ => DnsOutcome.nxdomain) ⟨"127.0.0.1", 53, "ABCDEFGHIJ"⟩ 3 "hello").queries =
      ["ABCDEFGHIJ3hello"] := by
  have h := chat_query_is_key_digit_prompt (fun _ => DnsOutcome.nxdomain)
    ⟨"127.0.0.1", 53, "ABCDEFGHIJ"⟩ 3 "hello" (by decide) (by decide) (by decide) (by decide)
  rw [h]
  decide

/-- Claim C2: whenever the api key is unset, the model index is outside
`[0, 9]`, or the prompt is empty after trimming, `chat` fails locally:
it returns no result, issues no transport query at all, and leaves the
client unchanged. -/
theorem chat_precondition_failure_no_query (t : Transport) (c : DNSChatClient)
    (mi : Int) (prompt : String)
    (h : c.api_key = "" ∨ ¬ (0 ≤ mi ∧ mi ≤ 9) ∨ pyTrim prompt = "") :
    (chat t c mi prompt).value = none ∧ (chat t c mi prompt).queries = [] ∧
      (chat t c mi prompt).client = c :=
  ⟨(chat_queries_invalid t c mi prompt h).1, (chat_queries_invalid t c mi prompt h).2,
    chat_client t c mi prompt⟩

/-- Witness for C2: a fresh client has no api key, so `chat` fails
without any transport query. -/
theorem chat_precondition_failure_no_query_check :
    (chat (fun _ => DnsOutcome.nxdomain) (DNSChatClient.init "127.0.0.1" 53) 3 "hello").value =
        none ∧
      (chat (fun _ => DnsOutcome.nxdomain) (DNSChatClient.init "127.0.0.1" 53) 3 "hello").queries =
        [] ∧
      (chat (fun _ => DnsOutcome.nxdomain) (DNSChatClient.init "127.0.0.1" 53) 3 "hello").client =
        DNSChatClient.init "127.0.0.1" 53 :=
  chat_precondition_failure_no_query _ _ _ _ (Or.inl rfl)

/-- Claim C3: `set_api_key` rejects every key whose length differs from
10 and leaves the client unchanged, and accepts every key of length 10,
storing exactly that key. -/
theorem set_api_key_length_contract (c : DNSChatClient) (k : String) :
    (k.length ≠ 10 →
      (set_api_key c k).value = false ∧ (set_api_key c k).client = c) ∧
    (k.length = 10 →
      (set_api_key c k).value = true ∧
        (set_api_key c k).client = { c with api_key := k }) := by
  constructor
  · intro h
    unfold set_api_key
    rw [if_pos h]
    exact ⟨rfl, rfl⟩
  · intro h
    unfold set_api_key
    rw [if_neg (not_not_intro h)]
    exact ⟨rfl, rfl⟩

/-- Witness for C3 at a 3-character key (rejected, state kept) and a
10-character key (accepted, key stored). -/
theorem set_api_key_length_contract_check :
    ((set_api_key (DNSChatClient.init "127.0.0.1" 53) "abc").value = false ∧
      (set_api_key (DNSChatClient.init "127.0.0.1" 53) "abc").client =
        DNSChatClient.init "127.0.0.1" 53) ∧
    ((set_api_key (DNSChatClient.init "127.0.0.1" 53) "ABCDEFGHIJ").value = true ∧
      (set_api_key (DNSChatClient.init "127.0.0.1" 53) "ABCDEFGHIJ").client =
        { DNSChatClient.init "127.0.0.1" 53 with api_key := "ABCDEFGHIJ" }) :=
  ⟨(set_api_key_length_contract (DNSChatClient.init "127.0.0.1" 53) "abc").1 (by decide),
    (set_api_key_length_contract (DNSChatClient.init "127.0.0.1" 53) "ABCDEFGHIJ").2 (by decide)⟩

/-- Claim C4 as stated is false: decoding uses Python `strip` on the
quote character, which removes every leading and trailing quote, so a
content that itself begins and ends with a quote character loses those
inner quotes.  Delivered payload `""x""` decodes to `x`, not `"x"`. -/
theorem decode_strips_inner_quotes_cex :
    (query_dns (fun _ => DnsOutcome.answer ["\"\"x\"\""]) "Q" false).value = some "x" ∧
      ("x" : String) ≠ "\"x\"" := by decide

/-- Claim C4 amended: decoding strips every leading and trailing quote
character of the delivered payload, collapsing any number of quote
layers; when the content itself neither begins nor ends with a quote,
this removes exactly the resolver quoting and returns the content. -/
theorem decode_strips_all_boundary_quotes (q content : String) (j k : Nat)
    (hh : content.data.head? ≠ some '"') (hl : content.data.getLast? ≠ some '"') :
    (query_dns
        (fun _ => DnsOutcome.answer
          [String.mk (List.replicate (j + 1) '"' ++ content.data ++ List.replicate (k + 1) '"')])
        q false).value = some content := by
  have hh' : ∀ x ∈ content.data.head?, (x == '"') = false := fun x hx =>
    beq_eq_false_iff_ne.mpr fun he => hh (he ▸ Option.mem_def.mp hx)
  have hl' : ∀ x ∈ content.data.getLast?, (x == '"') = false := fun x hx =>
    beq_eq_false_iff_ne.mpr fun he => hl (he ▸ Option.mem_def.mp hx)
  have hs := stripWhile_replicate_sandwich (fun c => c == '"') '"' rfl content.data hh' hl'
    (j + 1) (k + 1)
  unfold query_dns
  dsimp only
  unfold pyStripChar
  rw [show (String.mk
      (List.replicate (j + 1) '"' ++ content.data ++ List.replicate (k + 1) '"')).data
    = List.replicate (j + 1) '"' ++ content.data ++ List.replicate (k + 1) '"' from rfl]
  rw [hs]

/-- Witness for the amended C4: one layer of quotes around `hello` is
stripped, returning `hello`. -/
theorem decode_strips_all_boundary_quotes_check :
    (query_dns
        (fun _ => DnsOutcome.answer
          [String.mk (List.replicate 1 '"' ++ ("hello" : String).data ++ List.replicate 1 '"')])
        "PING" false).value = some "hello" :=
  decode_strips_all_boundary_quotes "PING" "hello" 0 0 (by decide) (by decide)

/-- Claim C5 as stated is false on the empty model list: the payload
`Available models: ` (prefix and no names) is not treated as a format
error; `list_models` succeeds and returns the singleton list containing
the empty string. -/
theorem list_models_empty_payload_cex :
    (list_models (fun _ => DnsOutcome.answer ["\"Available models: \""])
        (DNSChatClient.init "127.0.0.1" 53)).value = some [""] ∧
      (list_models (fun _ => DnsOutcome.answer ["\"Available models: \""])
        (DNSChatClient.init "127.0.0.1" 53)).value ≠ none := by decide

theorem pyReplace_prefix_removed (rest : String)
    (hno : hasSub ("Available models: " : String).data rest.data = false) :
    pyReplace ("Available models: " ++ rest) "Available models: " "" = rest := by
  unfold pyReplace
  rw [String.data_append]
  rw [show ("" : String).data = ([] : List Char) from rfl]
  rw [listReplace_append_of_not_hasSub ("Available models: " : String).data [] rest.data
    (by decide) hno]
  rfl

/-- Claim C5 amended: for every decoded `LIST` payload of the shape
`Available models: ` followed by a remainder that does not itself
contain the substring `Available models: ` again, `list_models` returns
the entries obtained by splitting the remainder on the pipe character
with each entry stripped, in order.  (Python `replace` removes every
occurrence of the prefix text, and an empty remainder yields the
successful singleton list of the empty string, not a format error.) -/
theorem list_models_splits_remainder (t : Transport) (c : DNSChatClient) (rest : String)
    (hq : (query_dns t "LIST" false).value = some ("Available models: " ++ rest))
    (hno : hasSub ("Available models: " : String).data rest.data = false) :
    (list_models t c).value = some ((pySplit rest '|').map pyTrim) := by
  have hne : ("Available models: " ++ rest : String) ≠ "" := fun h => by
    have h2 := congrArg String.data h
    rw [String.data_append] at h2
    rcases List.append_eq_nil.mp h2 with ⟨h3, _⟩
    exact absurd h3 (by decide)
  have hsw : pyStartsWith ("Available models: " ++ rest) "Available models:" = true := by
    unfold pyStartsWith
    rw [String.data_append]
    rw [show ("Available models: " : String).data
      = ("Available models:" : String).data ++ [' '] from by decide]
    rw [List.append_assoc]
    exact isPrefixOf_append_self _ _
  unfold list_models
  dsimp only
  rw [hq]
  dsimp only
  rw [if_pos ⟨hne, hsw⟩]
  dsimp only
  rw [pyReplace_prefix_removed rest hno]

/-- Witness for the amended C5 at the spec example: the payload
`Available models: gpt-a | gpt-b` yields `["gpt-a", "gpt-b"]`. -/
theorem list_models_splits_remainder_check :
    (list_models (fun _ => DnsOutcome.answer ["\"Available models: gpt-a | gpt-b\""])
        (DNSChatClient.init "127.0.0.1" 53)).value = some ["gpt-a", "gpt-b"] := by
  have h := list_models_splits_remainder
    (fun _ => DnsOutcome.answer ["\"Available models: gpt-a | gpt-b\""])
    (DNSChatClient.init "127.0.0.1" 53) "gpt-a | gpt-b" (by decide) (by decide)
  rw [h]
  decide

/-- Claim C6: `ping` succeeds exactly when the decoded answer for the
query name `PING` is the string `PONG`; any other answer or failure
yields `false`; the client state is unchanged, the query sent is `PING`,
and a repeated call behaves identically (no state corruption). -/
theorem ping_pong_iff (t : Transport) (c : DNSChatClient) :
    ((ping t c).value = true ↔ (query_dns t "PING" false).value = some "PONG") ∧
      (ping t c).client = c ∧ (ping t c).queries = ["PING"] ∧
      ping t ((ping t c).client) = ping t c := by
  refine ⟨?_, ping_client t c, ping_queries t c, by rw [ping_client]⟩
  unfold ping
  dsimp only
  split
  · rename_i h
    simp [h]
  · rename_i h
    simp [h]

/-- Claim C7 as stated is false: on the payload `ERROR:rate limited`
the error message reported by `chat` is the whole payload, prefix
included, not the text after the prefix. -/
theorem chat_error_message_keeps_prefix_cex :
    (chat (fun _ => DnsOutcome.answer ["\"ERROR:rate limited\""])
        ⟨"127.0.0.1", 53, "ABCDEFGHIJ"⟩ 3 "hello").output =
        [⟨MsgKind.error, "ERROR:rate limited"⟩] ∧
      (chat (fun _ => DnsOutcome.answer ["\"ERROR:rate limited\""])
        ⟨"127.0.0.1", 53, "ABCDEFGHIJ"⟩ 3 "hello").output ≠
        [⟨MsgKind.error, "rate limited"⟩] := by decide

/-- Claim C7 amended: for every answer payload that begins with
`ERROR:`, `chat` returns no chat reply, reports the payload verbatim
(prefix included) as an error message, and leaves the client state
unchanged. -/
theorem chat_server_error_reported_verbatim (t : Transport) (c : DNSChatClient)
    (mi : Int) (prompt : String) (response : String)
    (hk : c.api_key ≠ "") (hm : 0 ≤ mi ∧ mi ≤ 9) (hp : pyTrim prompt ≠ "")
    (hq : (query_dns t (c.api_key ++ toString mi ++ prompt) false).value = some response)
    (he : pyStartsWith response "ERROR:" = true) :
    (chat t c mi prompt).value = none ∧ (chat t c mi prompt).client = c ∧
      (chat t c mi prompt).output =
        (query_dns t (c.api_key ++ toString mi ++ prompt) false).output ++
          [⟨MsgKind.error, response⟩] := by
  have hne : response ≠ "" := by
    intro h
    rw [h] at he
    exact absurd he (by decide)
  refine ⟨?_, chat_client t c mi prompt, ?_⟩ <;>
  · unfold chat
    dsimp only
    rw [if_neg hk, if_neg (not_not_intro hm), if_neg hp, hq]
    dsimp only
    rw [if_pos hne, if_pos he]

/-- Witness for the amended C7 at the spec example payload
`ERROR:rate limited`. -/
theorem chat_server_error_reported_verbatim_check :
    (chat (fun _ => DnsOutcome.answer ["\"ERROR:rate limited\""])
        ⟨"127.0.0.1", 53, "ABCDEFGHIJ"⟩ 3 "hello").value = none ∧
      (chat (fun _ => DnsOutcome.answer ["\"ERROR:rate limited\""])
        ⟨"127.0.0.1", 53, "ABCDEFGHIJ"⟩ 3 "hello").client = ⟨"127.0.0.1", 53, "ABCDEFGHIJ"⟩ ∧
      (chat (fun _ => DnsOutcome.answer ["\"ERROR:rate limited\""])
        ⟨"127.0.0.1", 53, "ABCDEFGHIJ"⟩ 3 "hello").output =
        (query_dns (fun _ => DnsOutcome.answer ["\"ERROR:rate limited\""])
            ("ABCDEFGHIJ" ++ toString (3 : Int) ++ "hello") false).output ++
          [⟨MsgKind.error, "ERROR:rate limited"⟩] :=
  chat_server_error_reported_verbatim (fun _ => DnsOutcome.answer ["\"ERROR:rate limited\""])
    ⟨"127.0.0.1", 53, "ABCDEFGHIJ"⟩ 3 "hello" "ERROR:rate limited"
    (by decide) (by decide) (by decide) (by decide) (by decide)

/-- Claim C8: when every transport query fails with one of the expected
DNS failures (NXDOMAIN, no TXT answer, timeout, other DNS or unexpected
error), `ping` returns `false`, `list_models` and `chat` return no
result, no exception escapes (the operations are total), and the client
state is exactly as before each call. -/
theorem dns_failure_returns_failure_state_unchanged (t : Transport) (c : DNSChatClient)
    (mi : Int) (prompt : String) (hfail : ∀ q, (t q).isFail = true) :
    ((ping t c).value = false ∧ (ping t c).client = c) ∧
      ((list_models t c).value = none ∧ (list_models t c).client = c) ∧
      ((chat t c mi prompt).value = none ∧ (chat t c mi prompt).client = c) := by
  refine ⟨⟨?_, ping_client t c⟩, ⟨?_, list_models_client t c⟩, ⟨?_, chat_client t c mi prompt⟩⟩
  · unfold ping
    dsimp only
    rw [query_dns_value_fail t "PING" false (hfail "PING")]
    simp
  · unfold list_models
    dsimp only
    rw [query_dns_value_fail t "LIST" false (hfail "LIST")]
  · rcases eq_or_ne c.api_key "" with hk | hk
    · exact (chat_queries_invalid t c mi prompt (Or.inl hk)).1
    · rcases Classical.em (0 ≤ mi ∧ mi ≤ 9) with hm | hm
      · rcases eq_or_ne (pyTrim prompt) "" with hp | hp
        · exact (chat_queries_invalid t c mi prompt (Or.inr (Or.inr hp))).1
        · unfold chat
          dsimp only
          rw [if_neg hk, if_neg (not_not_intro hm), if_neg hp]
          rw [query_dns_value_fail t _ false (hfail _)]
      · exact (chat_queries_invalid t c mi prompt (Or.inr (Or.inl hm))).1

/-- Witness for C8 against a transport that always reports NXDOMAIN. -/
theorem dns_failure_returns_failure_state_unchanged_check :
    (((ping (fun _ => DnsOutcome.nxdomain) ⟨"127.0.0.1", 53, "ABCDEFGHIJ"⟩).value = false ∧
        (ping (fun _ => DnsOutcome.nxdomain) ⟨"127.0.0.1", 53, "ABCDEFGHIJ"⟩).client =
          ⟨"127.0.0.1", 53, "ABCDEFGHIJ"⟩) ∧
      ((list_models (fun _ => DnsOutcome.nxdomain) ⟨"127.0.0.1", 53, "ABCDEFGHIJ"⟩).value =
          none ∧
        (list_models (fun _ => DnsOutcome.nxdomain) ⟨"127.0.0.1", 53, "ABCDEFGHIJ"⟩).client =
          ⟨"127.0.0.1", 53, "ABCDEFGHIJ"⟩) ∧
      ((chat (fun _ => DnsOutcome.nxdomain) ⟨"127.0.0.1", 53, "ABCDEFGHIJ"⟩ 3 "hello").value =
          none ∧
        (chat (fun _ => DnsOutcome.nxdomain) ⟨"127.0.0.1", 53, "ABCDEFGHIJ"⟩ 3 "hello").client =
          ⟨"127.0.0.1", 53, "ABCDEFGHIJ"⟩)) :=
  dns_failure_returns_failure_state_unchanged (fun _ => DnsOutcome.nxdomain)
    ⟨"127.0.0.1", 53, "ABCDEFGHIJ"⟩ 3 "hello" (fun _ => rfl)

/-- Claim C9: no operation retries: a single call to `ping`,
`list_models` or `chat` issues at most one transport query, whatever
the transport outcome. -/
theorem at_most_one_query_per_call (t : Transport) (c : DNSChatClient)
    (mi : Int) (prompt : String) :
    (ping t c).queries.length ≤ 1 ∧ (list_models t c).queries.length ≤ 1 ∧
      (chat t c mi prompt).queries.length ≤ 1 := by
  refine ⟨by rw [ping_queries]; simp, by rw [list_models_queries]; simp, ?_⟩
  rcases eq_or_ne c.api_key "" with hk | hk
  · rw [(chat_queries_invalid t c mi prompt (Or.inl hk)).2]
    simp
  · rcases Classical.em (0 ≤ mi ∧ mi ≤ 9) with hm | hm
    · rcases eq_or_ne (pyTrim prompt) "" with hp | hp
      · rw [(chat_queries_invalid t c mi prompt (Or.inr (Or.inr hp))).2]
        simp
      · rw [chat_queries_valid t c mi prompt hk hm hp]
        simp
    · rw [(chat_queries_invalid t c mi prompt (Or.inr (Or.inl hm))).2]
      simp

/-- Claim C10: in every client state reachable through the public
operations, the stored api key is either empty (the initial value) or
exactly 10 characters long; and `chat` proceeds past its key check
(issuing a query, given an in-range index and a non-empty prompt)
exactly when the key is non-empty. -/
theorem api_key_invariant (c : DNSChatClient) (hc : Reachable c) :
    (c.api_key = "" ∨ c.api_key.length = 10) ∧
      ∀ (t : Transport) (mi : Int) (prompt : String),
        0 ≤ mi → mi ≤ 9 → pyTrim prompt ≠ "" →
          ((chat t c mi prompt).queries ≠ [] ↔ c.api_key ≠ "") := by
  constructor
  · induction hc with
    | start host port => exact Or.inl rfl
    | setKey c' k hr ih =>
      rcases eq_or_ne k.length 10 with hlen | hlen
      · unfold set_api_key
        rw [if_neg (not_not_intro hlen)]
        exact Or.inr hlen
      · unfold set_api_key
        rw [if_pos hlen]
        exact ih
    | pinged c' t hr ih =>
      rw [ping_client]
      exact ih
    | listed c' t hr ih =>
      rw [list_models_client]
      exact ih
    | chatted c' t mi p hr ih =>
      rw [chat_client]
      exact ih
  · intro t mi prompt h0 h9 hp
    constructor
    · intro hq hk
      exact hq (chat_queries_invalid t c mi prompt (Or.inl hk)).2
    · intro hk
      rw [chat_queries_valid t c mi prompt hk ⟨h0, h9⟩ hp]
      simp

/-- Witness for C10 at the freshly constructed client. -/
theorem api_key_invariant_check :
    ((DNSChatClient.init "127.0.0.1" 53).api_key = "" ∨
        (DNSChatClient.init "127.0.0.1" 53).api_key.length = 10) ∧
      ((chat (fun _ => DnsOutcome.nxdomain) (DNSChatClient.init "127.0.0.1" 53) 3 "hi").queries ≠
          [] ↔ (DNSChatClient.init "127.0.0.1" 53).api_key ≠ "") :=
  ⟨(api_key_invariant (DNSChatClient.init "127.0.0.1" 53) (Reachable.start "127.0.0.1" 53)).1,
    (api_key_invariant (DNSChatClient.init "127.0.0.1" 53) (Reachable.start "127.0.0.1" 53)).2
      (fun _ => DnsOutcome.nxdomain) 3 "hi" (by decide) (by decide) (by decide)⟩

end DnsChat
